import Mathlib

/-!
Shallow embedding of the LocaFind backend (src/main.py): a FastAPI service
that resolves a location name to coordinates, searches nearby places,
augments the selected place with a website from a details lookup, and
generates a narrative via a completion call.  External HTTP services and
the completion call are modelled as explicit function-valued inputs
(an `Env`); machine floats (ratings) are modelled as rationals, and
already-formatted latitude/longitude values as strings.
-/

namespace LocaFind

/-- FastAPI `HTTPException(status_code=..., detail=...)`. -/
structure HTTPException where
  status_code : Nat
  detail : String
deriving DecidableEq, Repr

/-- `data["results"][i]["geometry"]["location"]` of a geocoding response.
Latitude/longitude are modelled as their formatted text (the Python code
only ever interpolates them into a string). -/
structure GeoLocation where
  lat : String
  lng : String
deriving DecidableEq, Repr

/-- One candidate of a geocoding response (only the geometry location is read). -/
structure GeoResult where
  location : GeoLocation
deriving DecidableEq, Repr

/-- A geocoding HTTP response: status code and `data["results"]`. -/
structure GeoResponse where
  status_code : Nat
  results : List GeoResult
deriving DecidableEq, Repr

/-- `place["opening_hours"]` sub-object; `open_now` may be absent. -/
structure OpeningHours where
  open_now : Option Bool
deriving DecidableEq, Repr

/-- A place record as returned by the nearby-search service; `website` is
attached later by `search_nearby_places`.  Ratings (Python floats) are
modelled as rationals. -/
structure Place where
  place_id : String
  name : String
  vicinity : String
  types : List String
  rating : Option ℚ
  user_ratings_total : Nat
  opening_hours : Option OpeningHours
  website : Option String
deriving DecidableEq, Repr

/-- A nearby-search HTTP response: status code and `data["results"]`. -/
structure NearbyResponse where
  status_code : Nat
  results : List Place
deriving DecidableEq, Repr

/-- `data["result"]` of a place-details response (only `website` is read;
`none` models an absent key). -/
structure DetailsResult where
  website : Option String
deriving DecidableEq, Repr

/-- A place-details HTTP response: status code and optional `data["result"]`. -/
structure DetailsResponse where
  status_code : Nat
  result : Option DetailsResult
deriving DecidableEq, Repr

/-- The external world: geocoding keyed by location name, nearby search keyed
by the full parameter list sent, details keyed by place id, and the
completion service keyed by the (role, content) message list. -/
structure Env where
  geocode : String → GeoResponse
  nearby : List (String × String) → NearbyResponse
  details : String → DetailsResponse
  completion : List (String × String) → Except String String

/-- `get_coordinates` (src/main.py lines 59-76). -/
def get_coordinates (geo : String → GeoResponse) (location_name : String) :
    Except HTTPException String :=
  let response := geo location_name
  if response.status_code ≠ 200 then
    .error ⟨500, "Google Maps APIから座標を取得できませんでした。ステータスコード: " ++
      toString response.status_code⟩
  else
    match response.results with
    | [] => .error ⟨404, location_name ++ " の座標が見つかりません"⟩
    | r :: _ => .ok (r.location.lat ++ "," ++ r.location.lng)

/-- The `if location_name: ... else ...` head of `search_nearby_places`
(lines 80-85); Python truthiness makes the empty string fall back to the
default Tokyo coordinates as well. -/
def resolve_location (geo : String → GeoResponse) (location_name : Option String) :
    Except HTTPException String :=
  match location_name with
  | some s => if s = "" then .ok "35.6895,139.6917" else get_coordinates geo s
  | none => .ok "35.6895,139.6917"

/-- The request parameter dict built at lines 89-102; `"GOOGLE_MAPS_API_KEY"`
stands for the configured credential. -/
def nearby_params (location : String) (query : String) (open_now : Option Bool)
    (price_level : Option Int) : List (String × String) :=
  [("location", location), ("radius", "1500"), ("keyword", query),
   ("language", "ja"), ("key", "GOOGLE_MAPS_API_KEY")] ++
  (match open_now with
   | some b => [("opennow", if b then "true" else "false")]
   | none => []) ++
  (match price_level with
   | some p => [("minprice", toString p), ("maxprice", toString p)]
   | none => [])

/-- `get_place_details` (lines 290-301): `none` on a non-200 status, on a
missing `result`, or on a missing `website` key. -/
def get_place_details (details : String → DetailsResponse) (place_id : String) :
    Option String :=
  let response := details place_id
  if response.status_code ≠ 200 then none
  else
    match response.result with
    | some r => r.website
    | none => none

/-- The client-side rating filter at lines 116-117 (a missing rating counts
as 0). -/
def apply_rating_filter (rating : Option ℚ) (results : List Place) : List Place :=
  match rating with
  | some r => results.filter (fun place => decide (r ≤ place.rating.getD 0))
  | none => results

/-- The body of `search_nearby_places` after the location is resolved
(lines 87-132): issue the nearby request, filter by rating, pick the first
remaining candidate and attach the website from the details lookup. -/
def nearby_and_select (env : Env) (location : String) (query : String)
    (open_now : Option Bool) (price_level : Option Int) (rating : Option ℚ) :
    Except HTTPException Place :=
  let response := env.nearby (nearby_params location query open_now price_level)
  if response.status_code ≠ 200 then
    .error ⟨500, "Google Maps APIリクエストが失敗しました。ステータスコード: " ++
      toString response.status_code⟩
  else
    match apply_rating_filter rating response.results with
    | [] => .error ⟨404, "該当する場所が見つかりません"⟩
    | place_info :: _ =>
      .ok { place_info with website := get_place_details env.details place_info.place_id }

/-- `search_nearby_places` (lines 79-132). -/
def search_nearby_places (env : Env) (query : String) (location_name : Option String)
    (open_now : Option Bool) (price_level : Option Int) (rating : Option ℚ) :
    Except HTTPException Place :=
  (resolve_location env.geocode location_name).bind
    (fun location => nearby_and_select env location query open_now price_level rating)

/-- `place_type_mapping` (lines 148-157). -/
def place_type_mapping : List (String × String) :=
  [("school", "学校"), ("restaurant", "飲食店"), ("cafe", "カフェ"),
   ("tourist_attraction", "観光スポット"), ("park", "公園"), ("museum", "博物館"),
   ("shopping_mall", "ショッピングモール")]

/-- The comprehension at line 160: keep the mapped Japanese labels, in order. -/
def place_types_ja (types : List String) : List String :=
  types.filterMap (fun t => place_type_mapping.lookup t)

/-- Line 161: first mapped label, or the generic fallback. -/
def place_type_ja (types : List String) : String :=
  (place_types_ja types).headD "施設"

/-- Lines 144-145: tri-state open/closed/unknown label. -/
def open_status (place_info : Place) : String :=
  match place_info.opening_hours with
  | some oh =>
    match oh.open_now with
    | some true => "営業中"
    | some false => "営業時間外"
    | none => "営業時間不明"
  | none => "営業時間不明"

/-- Line 142: the displayed rating; the Python float rendering is modelled
by the rational rendering. -/
def rating_str (place_info : Place) : String :=
  match place_info.rating with
  | some r => toString r
  | none => "未評価"

/-- Line 169: joined mapped labels, or the generic fallback. -/
def types_ja_str (types : List String) : String :=
  match place_types_ja types with
  | [] => "施設"
  | l => String.intercalate ", " l

/-- The user prompt f-string (lines 164-176). -/
def build_prompt (place_info : Place) : String :=
  "以下の情報に基づいて、" ++ place_type_ja place_info.types ++ "「" ++ place_info.name ++
  "」について魅力的な説明を作成してください：\n\n" ++
  "ユーザーが読みやすいようにその文が終わったら、1行下に下がって新しい文を作成してください。\n\n" ++
  "施設名: " ++ place_info.name ++ "\n" ++
  "種類: " ++ types_ja_str place_info.types ++ "\n" ++
  "住所: " ++ place_info.vicinity ++ "\n" ++
  "評価: " ++ rating_str place_info ++ "（" ++ toString place_info.user_ratings_total ++
  "件の評価）\n" ++
  "営業状況: " ++ open_status place_info ++ "\n\n\n" ++
  "文章の始まりは「" ++ place_info.name ++ "はいかがですか？」\n" ++
  "その後の文は簡潔に情報をまとめて、丁寧な言葉遣いで話してください。文章の最後は" ++
  place_info.name ++ "の住所を教えてください"

/-- The fixed system message (lines 182-191), with the source's indentation. -/
def system_content : String :=
  "あなたは最高の観光ガイドです。\n                以下のような特徴を踏まえて説明してください：\n                - 丁寧な話し方\n                - 相手が知りたいことをわかりやすく伝える\n                - その場所の特徴や魅力を分かりやすく伝える\n                - 具体的で実用的な情報の提供\n                - ポジティブながらも正直な評価\n                - 時間帯や状況に応じた適切なアドバイス\n                - 300文字以内に説明してください\n                - 施設の種類に応じた適切な説明と推奨ポイント"

/-- The (role, content) message list submitted to the completion service
(lines 181-193). -/
def build_messages (place_info : Place) : List (String × String) :=
  [("system", system_content), ("user", build_prompt place_info)]

/-- Python `str.strip()`: drop whitespace from both ends. -/
def py_strip (s : String) : String :=
  ⟨((s.data.dropWhile Char.isWhitespace).reverse.dropWhile Char.isWhitespace).reverse⟩

/-- Python `.replace(chr(10), chr(32))` at line 196: the single-character
replacement is a character map. -/
def collapse_newlines (s : String) : String :=
  ⟨s.data.map (fun c => if c = '\n' then ' ' else c)⟩

/-- The Jinja2 `nl2br` filter (lines 52-53): `replace` with the
single-character pattern `chr(10)` substitutes `<br>` for each newline. -/
def nl2br (value : String) : String :=
  ⟨value.data.flatMap (fun c => if c = '\n' then "<br>".data else [c])⟩

/-- `generate_response` (lines 135-204): build the prompt, call the
completion service, and on success strip the text and collapse newlines to
spaces; any completion failure becomes a 500. -/
def generate_response (env : Env) (place_info : Place) : Except HTTPException String :=
  match env.completion (build_messages place_info) with
  | .error e => .error ⟨500, "OpenAI APIエラーが発生しました: " ++ e⟩
  | .ok content => .ok (collapse_newlines (py_strip content))

/-- The `/chat` handler (lines 206-231), returning the `message` field.
The handler re-raises `HTTPException` unchanged; the generic
`except Exception` arm is unreachable in this pure model. -/
def chat (env : Env) (query : String) (location_name : Option String)
    (open_now : Option Bool) (price_level : Option Int) (rating : Option ℚ) :
    Except HTTPException String :=
  (search_nearby_places env query location_name open_now price_level rating).bind
    (fun place => generate_response env place)

/-- Line 252: `True if open_now == "true" else None`; never `False`. -/
def convert_open_now (open_now : Option String) : Option Bool :=
  if open_now = some "true" then some true else none

/-- A non-empty run of ASCII digits read as a number. -/
def digits_to_nat (cs : List Char) : Option Nat :=
  if cs.isEmpty then none
  else if cs.all Char.isDigit then
    some (cs.foldl (fun n c => 10 * n + (c.toNat - 48)) 0)
  else none

/-- Python `int(s)`: a decimal integer literal with an optional sign and
surrounding whitespace (underscore separators and non-ASCII digits are out
of the modelled subset). -/
def py_int (s : String) : Option Int :=
  match (py_strip s).data with
  | '-' :: rest => (digits_to_nat rest).map (fun n => -(n : Int))
  | '+' :: rest => (digits_to_nat rest).map (fun n => (n : Int))
  | cs => (digits_to_nat cs).map (fun n => (n : Int))

/-- Unsigned part of Python `float(s)`: digits with at most one decimal
point and at least one digit overall. -/
def parse_unsigned_decimal (cs : List Char) : Option ℚ :=
  let a := cs.takeWhile (fun c => c ≠ '.')
  match cs.dropWhile (fun c => c ≠ '.') with
  | [] => (digits_to_nat a).map (fun n => (n : ℚ))
  | _ :: b =>
    if b.any (fun c => c = '.') then none
    else if a.isEmpty && b.isEmpty then none
    else
      match (if a.isEmpty then some 0 else digits_to_nat a),
            (if b.isEmpty then some 0 else digits_to_nat b) with
      | some i, some f => some ((i : ℚ) + (f : ℚ) / ((10 : ℚ) ^ b.length))
      | _, _ => none

/-- Python `float(s)`: plain decimal literals with an optional sign and
surrounding whitespace (exponent and special forms are out of the modelled
subset). -/
def py_float (s : String) : Option ℚ :=
  match (py_strip s).data with
  | [] => none
  | '-' :: rest => (parse_unsigned_decimal rest).map (fun q => -q)
  | '+' :: rest => parse_unsigned_decimal rest
  | cs => parse_unsigned_decimal cs

/-- Line 253: `int(price_level) if price_level and price_level.strip() else
None`; a non-convertible non-blank string raises `ValueError`. -/
def convert_price_level (price_level : Option String) : Except String (Option Int) :=
  match price_level with
  | none => .ok none
  | some s =>
    if s = "" then .ok none
    else if py_strip s = "" then .ok none
    else
      match py_int s with
      | some n => .ok (some n)
      | none => .error ("invalid literal for int() with base 10: " ++ s)

/-- Line 254: `float(rating) if rating and rating.strip() else None`; a
non-convertible non-blank string raises `ValueError`. -/
def convert_rating (rating : Option String) : Except String (Option ℚ) :=
  match rating with
  | none => .ok none
  | some s =>
    if s = "" then .ok none
    else if py_strip s = "" then .ok none
    else
      match py_float s with
      | some q => .ok (some q)
      | none => .error ("could not convert string to float: " ++ s)

/-- Outcome of the `/results` handler: a rendered result page, a rendered
error page (the `except HTTPException` arm), or an exception that escapes
the handler because only `HTTPException` is caught. -/
inductive DisplayOutcome where
  | page (response_text : String) (place_info : Place) (place_name : String)
      (address : String)
  | error_page (detail : String)
  | uncaught (message : String)
deriving DecidableEq, Repr

/-- The search/generate/render body of `display_results` (lines 256-287)
after parameter conversion. -/
def render_search (env : Env) (query : String) (location_name : String)
    (open_now : Option Bool) (price_level : Option Int) (rating : Option ℚ) :
    DisplayOutcome :=
  match (search_nearby_places env query (some location_name) open_now price_level
      rating).bind (fun place =>
        (generate_response env place).map (fun text => (place, text))) with
  | .error e => .error_page e.detail
  | .ok (place, text) => .page text place place.name place.vicinity

/-- The `/results` handler (lines 241-287): convert the string parameters
in source order, then search, generate and render; a `ValueError` from
`int()`/`float()` is not an `HTTPException` and escapes. -/
def display_results (env : Env) (query : String) (location_name : String)
    (open_now : Option String) (price_level : Option String) (rating : Option String) :
    DisplayOutcome :=
  let open_now_b := convert_open_now open_now
  match convert_price_level price_level with
  | .error e => .uncaught e
  | .ok pl =>
    match convert_rating rating with
    | .error e => .uncaught e
    | .ok rt => render_search env query location_name open_now_b pl rt

/-! ## Helper lemmas -/

deriving instance DecidableEq for Except

theorem string_append_ne_empty (s t : String) (h : s ≠ "") : s ++ t ≠ "" := by
  intro hc
  apply h
  have hd : s.data ++ t.data = ([] : List Char) := congrArg String.data hc
  have h1 : s.data = [] := (List.append_eq_nil.mp hd).1
  cases s
  simp_all

theorem filter_first_qualifying (r : ℚ) (p : Place) (l₁ l₂ : List Place)
    (hbefore : ∀ q ∈ l₁, q.rating.getD 0 < r) (hp : r ≤ p.rating.getD 0) :
    apply_rating_filter (some r) (l₁ ++ p :: l₂) =
      p :: l₂.filter (fun q => decide (r ≤ q.rating.getD 0)) := by
  have h1 : l₁.filter (fun q => decide (r ≤ q.rating.getD 0)) = [] := by
    refine List.filter_eq_nil_iff.mpr ?_
    intro a ha
    simpa using not_le.mpr (hbefore a ha)
  simp [apply_rating_filter, List.filter_append, List.filter_cons, h1, hp]

/-! ## Claims -/

/-- Concrete witness data: a candidate below the rating threshold. -/
def placeLow : Place :=
  ⟨"pid0", "店B", "住所0", [], some (3 : ℚ), 5, none, none⟩

/-- Concrete witness data: a candidate above the rating threshold. -/
def placeHigh : Place :=
  ⟨"pid1", "カフェA", "住所1", ["cafe"], some (5 : ℚ), 10, some ⟨some true⟩, none⟩

/-- Concrete witness environment: all services succeed; the nearby search
returns a low-rated candidate before a high-rated one. -/
def env1 : Env :=
  { geocode := fun _ => ⟨200, [⟨⟨"35.0", "139.0"⟩⟩]⟩,
    nearby := fun _ => ⟨200, [placeLow, placeHigh]⟩,
    details := fun _ => ⟨200, some ⟨some "https://example.com"⟩⟩,
    completion := fun _ => .ok "OK" }

/-- C1: when the candidate list contains a candidate at or above `min_rating`
(the first such being `p`, after a prefix `l₁` of candidates below it),
`search_nearby_places` returns exactly that first qualifying candidate in the
service order, augmented with the website, and its rating (missing treated
as 0) is at least `min_rating`. -/
theorem c1_returns_first_qualifying (env : Env) (query : String)
    (location_name : Option String) (open_now : Option Bool) (price_level : Option Int)
    (r : ℚ) (loc : String) (p : Place) (l₁ l₂ : List Place)
    (hloc : resolve_location env.geocode location_name = .ok loc)
    (hst : (env.nearby (nearby_params loc query open_now price_level)).status_code = 200)
    (hres : (env.nearby (nearby_params loc query open_now price_level)).results = l₁ ++ p :: l₂)
    (hbefore : ∀ q ∈ l₁, q.rating.getD 0 < r)
    (hp : r ≤ p.rating.getD 0) :
    search_nearby_places env query location_name open_now price_level (some r) =
      .ok { p with website := get_place_details env.details p.place_id } ∧
    r ≤ ({ p with website := get_place_details env.details p.place_id } : Place).rating.getD 0 := by
  constructor
  · rw [search_nearby_places, hloc]
    show nearby_and_select env loc query open_now price_level (some r) = _
    rw [nearby_and_select]
    simp only [hst, hres, filter_first_qualifying r p l₁ l₂ hbefore hp]
    simp
  · exact hp

/-- Witness for C1 at a concrete environment. -/
theorem c1_returns_first_qualifying_witness :
    search_nearby_places env1 "カフェ" (some "新宿区") none none (some 4) =
      .ok { placeHigh with website := some "https://example.com" } ∧
    (4 : ℚ) ≤ ({ placeHigh with website := some "https://example.com" } : Place).rating.getD 0 :=
  c1_returns_first_qualifying env1 "カフェ" (some "新宿区") none none 4 "35.0,139.0"
    placeHigh [placeLow] [] (by rfl) (by rfl) (by rfl) (by decide) (by decide)

/-- The keys ever sent to the nearby-search service. -/
theorem nearby_params_keys (location query : String) (open_now : Option Bool)
    (price_level : Option Int) :
    ∀ kv ∈ nearby_params location query open_now price_level,
      kv.1 ∈ (["location", "radius", "keyword", "language", "key",
               "opennow", "minprice", "maxprice"] : List String) := by
  intro kv hkv
  cases open_now <;> cases price_level <;>
    simp only [nearby_params, List.append_nil, List.mem_append, List.mem_cons,
      List.not_mem_nil, or_false] at hkv <;>
    casesm* _ ∨ _ <;> subst_vars <;> simp

/-- C2: if a `min_rating` is supplied and every returned candidate's rating
(missing treated as 0) is below it, `search_nearby_places` fails with the
404 not-found error; and the parameter list sent to the nearby-search
service never carries the rating (the filter is client-side only: the
request is built from location, query, open_now and price_level alone). -/
theorem c2_all_below_min_rating_not_found (env : Env) (query : String)
    (location_name : Option String) (open_now : Option Bool) (price_level : Option Int)
    (r : ℚ) (loc : String)
    (hloc : resolve_location env.geocode location_name = .ok loc)
    (hst : (env.nearby (nearby_params loc query open_now price_level)).status_code = 200)
    (hall : ∀ q ∈ (env.nearby (nearby_params loc query open_now price_level)).results,
      q.rating.getD 0 < r) :
    search_nearby_places env query location_name open_now price_level (some r) =
      .error ⟨404, "該当する場所が見つかりません"⟩ ∧
    ∀ kv ∈ nearby_params loc query open_now price_level, kv.1 ≠ "rating" := by
  constructor
  · rw [search_nearby_places, hloc]
    show nearby_and_select env loc query open_now price_level (some r) = _
    rw [nearby_and_select]
    have hfil : apply_rating_filter (some r)
        (env.nearby (nearby_params loc query open_now price_level)).results = [] := by
      refine List.filter_eq_nil_iff.mpr ?_
      intro a ha
      simpa using not_le.mpr (hall a ha)
    simp only [hst, hfil]
    simp
  · intro kv hkv
    have h := nearby_params_keys loc query open_now price_level kv hkv
    intro hcontra
    rw [hcontra] at h
    simp at h

/-- Witness for C2 at a concrete environment (only the low-rated candidate
is returned). -/
theorem c2_all_below_min_rating_not_found_witness :
    search_nearby_places
        { env1 with nearby := fun _ => ⟨200, [placeLow]⟩ }
        "カフェ" (some "新宿区") none none (some 4) =
      .error ⟨404, "該当する場所が見つかりません"⟩ ∧
    ∀ kv ∈ nearby_params "35.0,139.0" "カフェ" none none, kv.1 ≠ "rating" :=
  c2_all_below_min_rating_not_found { env1 with nearby := fun _ => ⟨200, [placeLow]⟩ }
    "カフェ" (some "新宿区") none none 4 "35.0,139.0" (by rfl) (by rfl) (by decide)

/-- C8: with no location name, the search body runs at the fixed default
coordinates "35.6895,139.6917", the result does not depend on the geocoding
service at all (it is never called), and the `location` parameter sent to
the nearby-search service is that default pair. -/
theorem c8_default_location_skips_geocoding (env : Env) (geo' : String → GeoResponse)
    (query : String) (open_now : Option Bool) (price_level : Option Int)
    (rating : Option ℚ) :
    search_nearby_places env query none open_now price_level rating =
      nearby_and_select env "35.6895,139.6917" query open_now price_level rating ∧
    search_nearby_places { env with geocode := geo' } query none open_now price_level rating =
      search_nearby_places env query none open_now price_level rating ∧
    ("location", "35.6895,139.6917") ∈
      nearby_params "35.6895,139.6917" query open_now price_level := by
  refine ⟨rfl, rfl, ?_⟩
  simp [nearby_params]

/-- C9: on the `/results` endpoint the `open_now` string is converted to
`some true` exactly when it is `"true"`; any other value (including
`"false"`, `"True"`, `"1"`) becomes `none`, and the conversion never
produces `some false`; `display_results` feeds exactly this conversion into
the search. -/
theorem c9_open_now_true_only :
    convert_open_now (some "true") = some true ∧
    (∀ s : Option String, s ≠ some "true" → convert_open_now s = none) ∧
    (∀ s : Option String, convert_open_now s ≠ some false) ∧
    (∀ (env : Env) (query location_name : String) (s : Option String),
      display_results env query location_name s none none =
        render_search env query location_name (convert_open_now s) none none) := by
  refine ⟨rfl, ?_, ?_, fun _ _ _ _ => rfl⟩
  · intro s hs
    rw [convert_open_now, if_neg hs]
  · intro s
    by_cases hs : s = some "true" <;> simp [convert_open_now, hs]

/-- Witness for C9 at the concrete values named by the claim. -/
theorem c9_open_now_true_only_witness :
    convert_open_now (some "false") = none ∧
    convert_open_now (some "True") = none ∧
    convert_open_now (some "1") = none ∧
    convert_open_now (some "true") = some true :=
  ⟨c9_open_now_true_only.2.1 (some "false") (by decide),
   c9_open_now_true_only.2.1 (some "True") (by decide),
   c9_open_now_true_only.2.1 (some "1") (by decide),
   c9_open_now_true_only.1⟩

/-- C7 counterexample: with `price_level = 5` the `/chat` pipeline raises no
validation error at all — it succeeds against a healthy environment — and
the out-of-domain value is passed through to the nearby-search call as both
`minprice` and `maxprice`. -/
theorem c7_price_level_counterexample :
    chat env1 "カフェ" none none (some 5) none = .ok "OK" ∧
    ("minprice", "5") ∈ nearby_params "35.6895,139.6917" "カフェ" none (some 5) ∧
    ("maxprice", "5") ∈ nearby_params "35.6895,139.6917" "カフェ" none (some 5) :=
  ⟨rfl, by decide, by decide⟩

/-- C7 amended: any supplied `price_level` — in or out of the 1–4 domain —
is passed through unchecked to the nearby-search call as
`minprice = maxprice = price_level`; no validation is performed. -/
theorem c7_price_level_passed_through (env : Env) (query loc : String)
    (open_now : Option Bool) (rating : Option ℚ) (p : Int) :
    search_nearby_places env query none open_now (some p) rating =
      nearby_and_select env "35.6895,139.6917" query open_now (some p) rating ∧
    ("minprice", toString p) ∈ nearby_params loc query open_now (some p) ∧
    ("maxprice", toString p) ∈ nearby_params loc query open_now (some p) := by
  refine ⟨rfl, ?_, ?_⟩ <;> simp [nearby_params]

/-- Concrete environment whose geocoding service answers 201 (a non-200
2xx) with a result. -/
def env201 : Env :=
  { env1 with geocode := fun _ => ⟨201, [⟨⟨"35.0", "139.0"⟩⟩]⟩ }

/-- C6 counterexample: on an HTTP 201 geocoding response with a result,
`get_coordinates` does not return the "lat,lng" pair — it raises the 500
error, because the code tests `status_code != 200`, not 2xx membership. -/
theorem c6_status_201_counterexample :
    get_coordinates env201.geocode "新宿区" =
      .error ⟨500, "Google Maps APIから座標を取得できませんでした。ステータスコード: 201"⟩ ∧
    200 ≤ (env201.geocode "新宿区").status_code ∧
    (env201.geocode "新宿区").status_code < 300 ∧
    (env201.geocode "新宿区").results ≠ [] ∧
    get_coordinates env201.geocode "新宿区" ≠ .ok "35.0,139.0" :=
  ⟨rfl, by decide, by decide, by decide, by decide⟩

/-- C6 amended: for every location name for which the geocoding service
returns HTTP 200 (exactly 200, the only status the code accepts) with at
least one result, `get_coordinates` returns the single string "lat,lng"
built from the first candidate's geometry location. -/
theorem c6_coordinates_from_first_result (geo : String → GeoResponse)
    (location_name : String) (r : GeoResult) (rest : List GeoResult)
    (hst : (geo location_name).status_code = 200)
    (hres : (geo location_name).results = r :: rest) :
    get_coordinates geo location_name = .ok (r.location.lat ++ "," ++ r.location.lng) := by
  rw [get_coordinates]
  simp [hst, hres]

/-- Witness for the amended C6 at a concrete environment. -/
theorem c6_coordinates_from_first_result_witness :
    get_coordinates env1.geocode "新宿区" = .ok "35.0,139.0" :=
  c6_coordinates_from_first_result env1.geocode "新宿区" ⟨⟨"35.0", "139.0"⟩⟩ []
    (by rfl) (by rfl)

/-- C4: if the place-details lookup fails (non-200) or yields no website
field, the augmenter returns `none`, the search still succeeds with the
selected place carrying an absent website, and the `/chat` pipeline goes on
to attempt narrative generation on that very record. -/
theorem c4_detail_failure_is_soft (env : Env) (query : String)
    (location_name : Option String) (open_now : Option Bool) (price_level : Option Int)
    (rating : Option ℚ) (loc : String) (p : Place) (rest : List Place)
    (hloc : resolve_location env.geocode location_name = .ok loc)
    (hst : (env.nearby (nearby_params loc query open_now price_level)).status_code = 200)
    (hfil : apply_rating_filter rating
      (env.nearby (nearby_params loc query open_now price_level)).results = p :: rest)
    (hdet : (env.details p.place_id).status_code ≠ 200 ∨
      ((env.details p.place_id).result.bind DetailsResult.website) = none) :
    get_place_details env.details p.place_id = none ∧
    search_nearby_places env query location_name open_now price_level rating =
      .ok { p with website := none } ∧
    chat env query location_name open_now price_level rating =
      generate_response env { p with website := none } := by
  have hgp : get_place_details env.details p.place_id = none := by
    by_cases hs : (env.details p.place_id).status_code = 200
    · rcases hdet with h | h
      · exact absurd hs h
      · rw [get_place_details]
        simp only [hs, ne_eq, not_true_eq_false, if_false]
        cases hr : (env.details p.place_id).result with
        | none => simp
        | some dr => rw [hr] at h; simpa using h
    · simp [get_place_details, hs]
  have hsearch : search_nearby_places env query location_name open_now price_level rating =
      .ok { p with website := none } := by
    rw [search_nearby_places, hloc]
    show nearby_and_select env loc query open_now price_level rating = _
    rw [nearby_and_select]
    simp only [hst, hfil, hgp]
    simp
  refine ⟨hgp, hsearch, ?_⟩
  rw [chat, hsearch]
  rfl

/-- Witness for C4: the details service answers 404, yet the search
succeeds and the pipeline result is exactly the generation outcome. -/
theorem c4_detail_failure_is_soft_witness :
    get_place_details (fun _ => (⟨404, none⟩ : DetailsResponse)) placeHigh.place_id = none ∧
    search_nearby_places
        { env1 with nearby := fun _ => ⟨200, [placeHigh]⟩,
                    details := fun _ => ⟨404, none⟩ }
        "カフェ" (some "新宿区") none none none = .ok { placeHigh with website := none } ∧
    chat { env1 with nearby := fun _ => ⟨200, [placeHigh]⟩, details := fun _ => ⟨404, none⟩ }
        "カフェ" (some "新宿区") none none none =
      generate_response
        { env1 with nearby := fun _ => ⟨200, [placeHigh]⟩, details := fun _ => ⟨404, none⟩ }
        { placeHigh with website := none } :=
  c4_detail_failure_is_soft
    { env1 with nearby := fun _ => ⟨200, [placeHigh]⟩, details := fun _ => ⟨404, none⟩ }
    "カフェ" (some "新宿区") none none none "35.0,139.0" placeHigh []
    (by rfl) (by rfl) (by rfl) (by decide)

/-- Concrete environment whose completion service returns a two-line text. -/
def env5 : Env :=
  { env1 with completion := fun _ => .ok "a\nb" }

/-- C5 counterexample: on a raw completion text "a\nb", `generate_response`
returns "a b"; the `/results` HTML path passes exactly this collapsed text
to the template, where `nl2br` finds no newline to expand — the raw
multi-line form is not preserved for HTML display. -/
theorem c5_html_raw_form_counterexample :
    generate_response env5 placeHigh = .ok "a b" ∧
    display_results env5 "カフェ" "新宿区" none none none =
      .page "a b" { placeLow with website := some "https://example.com" } "店B" "住所0" ∧
    nl2br "a b" = "a b" ∧
    ("a b" : String) ≠ "a\nb" ∧
    nl2br "a\nb" = "a<br>b" :=
  ⟨rfl, rfl, rfl, by decide, rfl⟩

/-- C5 amended: on completion success `generate_response` returns the text
stripped and with every newline replaced by a single space (the JSON/result
pipeline value), and the collapsed text contains no newline at all — so the
`nl2br` re-expansion on the HTML path has nothing to act on and the raw
multi-line form is not preserved for display. -/
theorem c5_newlines_collapsed (env : Env) (place_info : Place) (raw : String)
    (hcomp : env.completion (build_messages place_info) = .ok raw) :
    generate_response env place_info = .ok (collapse_newlines (py_strip raw)) ∧
    ∀ c ∈ (collapse_newlines (py_strip raw)).data, c ≠ '\n' := by
  constructor
  · rw [generate_response, hcomp]
  · intro c hc
    have hc' : c ∈ (py_strip raw).data.map (fun c => if c = '\n' then ' ' else c) := hc
    obtain ⟨a, _, rfl⟩ := List.mem_map.mp hc'
    by_cases h : a = '\n'
    · subst h; simp
    · rw [if_neg h]; exact h

/-- Witness for the amended C5 at a concrete environment. -/
theorem c5_newlines_collapsed_witness :
    generate_response env5 placeHigh = .ok (collapse_newlines (py_strip "a\nb")) ∧
    ∀ c ∈ (collapse_newlines (py_strip "a\nb")).data, c ≠ '\n' :=
  c5_newlines_collapsed env5 placeHigh "a\nb" (by rfl)

/-- A failing `resolve_location` comes from `get_coordinates` on a truthy
location name: either a 500 on a non-200 status, or a 404 on an empty
result list. -/
theorem resolve_location_error_cases (geo : String → GeoResponse)
    (location_name : Option String) (e : HTTPException)
    (h : resolve_location geo location_name = .error e) :
    ∃ s, location_name = some s ∧ s ≠ "" ∧
      (((geo s).status_code ≠ 200 ∧
        e = ⟨500, "Google Maps APIから座標を取得できませんでした。ステータスコード: " ++
          toString (geo s).status_code⟩) ∨
       ((geo s).status_code = 200 ∧ (geo s).results = [] ∧
        e = ⟨404, s ++ " の座標が見つかりません"⟩)) := by
  cases location_name with
  | none => simp [resolve_location] at h
  | some s =>
    by_cases hs : s = ""
    · rw [resolve_location, if_pos hs] at h
      simp at h
    · rw [resolve_location, if_neg hs, get_coordinates] at h
      by_cases hst : (geo s).status_code = 200
      · simp only [hst, ne_eq, not_true_eq_false, if_false] at h
        cases hres : (geo s).results with
        | nil =>
          rw [hres] at h
          refine ⟨s, rfl, hs, Or.inr ⟨hst, hres, ?_⟩⟩
          simpa using h.symm
        | cons r rs => rw [hres] at h; simp at h
      · simp only [hst, ne_eq, not_false_eq_true, if_true] at h
        exact ⟨s, rfl, hs, Or.inl ⟨hst, by simpa using h.symm⟩⟩

/-- C3 (amended): every failure of the `/chat` pipeline carries a non-empty
detail message and a 404 or 500 status; a 404 arises exactly from a
not-found condition (geocoding returned 200 with no match, or the filtered
candidate set is empty) and a 500 from an upstream response with status
other than 200 (from geocoding or nearby search) or from a completion-call
failure. -/
theorem c3_chat_error_classification (env : Env) (query : String)
    (location_name : Option String) (open_now : Option Bool) (price_level : Option Int)
    (rating : Option ℚ) (e : HTTPException)
    (h : chat env query location_name open_now price_level rating = .error e) :
    e.detail ≠ "" ∧ (e.status_code = 404 ∨ e.status_code = 500) ∧
    (e.status_code = 404 →
      (∃ s, location_name = some s ∧ s ≠ "" ∧ (env.geocode s).status_code = 200 ∧
        (env.geocode s).results = []) ∨
      (∃ loc, resolve_location env.geocode location_name = .ok loc ∧
        (env.nearby (nearby_params loc query open_now price_level)).status_code = 200 ∧
        apply_rating_filter rating
          (env.nearby (nearby_params loc query open_now price_level)).results = [])) ∧
    (e.status_code = 500 →
      (∃ s, location_name = some s ∧ s ≠ "" ∧ (env.geocode s).status_code ≠ 200) ∨
      (∃ loc, resolve_location env.geocode location_name = .ok loc ∧
        (env.nearby (nearby_params loc query open_now price_level)).status_code ≠ 200) ∨
      (∃ place msg,
        search_nearby_places env query location_name open_now price_level rating =
          .ok place ∧
        env.completion (build_messages place) = .error msg)) := by
  cases hr : resolve_location env.geocode location_name with
  | error e' =>
    have he : e' = e := by
      rw [chat, search_nearby_places, hr] at h
      simpa [Except.bind] using h
    subst he
    obtain ⟨s, hln, hsne, hcase⟩ := resolve_location_error_cases _ _ _ hr
    rcases hcase with ⟨hst, he'⟩ | ⟨hst, hres, he'⟩
    · subst he'
      refine ⟨string_append_ne_empty _ _ (by decide), Or.inr rfl, ?_, ?_⟩
      · intro h404; simp at h404
      · intro _; exact Or.inl ⟨s, hln, hsne, hst⟩
    · subst he'
      refine ⟨string_append_ne_empty _ _ hsne, Or.inl rfl, ?_, ?_⟩
      · intro _; exact Or.inl ⟨s, hln, hsne, hst, hres⟩
      · intro h500; simp at h500
  | ok loc =>
    have hch : chat env query location_name open_now price_level rating =
        (nearby_and_select env loc query open_now price_level rating).bind
          (fun place => generate_response env place) := by
      rw [chat, search_nearby_places, hr]
      rfl
    by_cases hst : (env.nearby (nearby_params loc query open_now price_level)).status_code = 200
    · cases hfil : apply_rating_filter rating
          (env.nearby (nearby_params loc query open_now price_level)).results with
      | nil =>
        have hsel : nearby_and_select env loc query open_now price_level rating =
            .error ⟨404, "該当する場所が見つかりません"⟩ := by
          rw [nearby_and_select]
          simp only [hst, hfil]
          simp
        rw [hch, hsel] at h
        have he : (⟨404, "該当する場所が見つかりません"⟩ : HTTPException) = e := by
          simpa [Except.bind] using h
        subst he
        refine ⟨by decide, Or.inl rfl, ?_, ?_⟩
        · intro _; exact Or.inr ⟨loc, rfl, hst, hfil⟩
        · intro h500; simp at h500
      | cons p rest =>
        have hsel : nearby_and_select env loc query open_now price_level rating =
            .ok { p with website := get_place_details env.details p.place_id } := by
          rw [nearby_and_select]
          simp only [hst, hfil]
          simp
        have hsearch : search_nearby_places env query location_name open_now price_level
            rating = .ok { p with website := get_place_details env.details p.place_id } := by
          rw [search_nearby_places, hr]
          exact hsel
        rw [hch, hsel] at h
        have hgen : generate_response env
            { p with website := get_place_details env.details p.place_id } = .error e := by
          simpa [Except.bind] using h
        rw [generate_response] at hgen
        cases hcomp : env.completion (build_messages
            { p with website := get_place_details env.details p.place_id }) with
        | ok content => rw [hcomp] at hgen; simp at hgen
        | error msg =>
          rw [hcomp] at hgen
          have he : (⟨500, "OpenAI APIエラーが発生しました: " ++ msg⟩ : HTTPException) = e := by
            simpa using hgen
          subst he
          refine ⟨string_append_ne_empty _ _ (by decide), Or.inr rfl, ?_, ?_⟩
          · intro h404; simp at h404
          · intro _
            exact Or.inr (Or.inr ⟨_, msg, hsearch, hcomp⟩)
    · have hsel : nearby_and_select env loc query open_now price_level rating =
          .error ⟨500, "Google Maps APIリクエストが失敗しました。ステータスコード: " ++
            toString (env.nearby (nearby_params loc query open_now price_level)).status_code⟩ := by
        rw [nearby_and_select]
        simp only [hst, ne_eq, not_false_eq_true, if_true]
      rw [hch, hsel] at h
      have he : (⟨500, "Google Maps APIリクエストが失敗しました。ステータスコード: " ++
          toString (env.nearby (nearby_params loc query open_now price_level)).status_code⟩ :
            HTTPException) = e := by
        simpa [Except.bind] using h
      subst he
      refine ⟨string_append_ne_empty _ _ (by decide), Or.inr rfl, ?_, ?_⟩
      · intro h404; simp at h404
      · intro _; exact Or.inr (Or.inl ⟨loc, rfl, hst⟩)

/-- Concrete environment whose geocoding service answers 500. -/
def env3 : Env :=
  { env1 with geocode := fun _ => ⟨500, []⟩ }

/-- Witness for the amended C3 at a concrete failing environment. -/
theorem c3_chat_error_classification_witness :
    ("Google Maps APIから座標を取得できませんでした。ステータスコード: 500" : String) ≠ "" ∧
    ((500 : Nat) = 404 ∨ (500 : Nat) = 500) ∧
    ((500 : Nat) = 404 →
      (∃ s, (some "新宿区" : Option String) = some s ∧ s ≠ "" ∧
        (env3.geocode s).status_code = 200 ∧ (env3.geocode s).results = []) ∨
      (∃ loc, resolve_location env3.geocode (some "新宿区") = .ok loc ∧
        (env3.nearby (nearby_params loc "カフェ" none none)).status_code = 200 ∧
        apply_rating_filter none
          (env3.nearby (nearby_params loc "カフェ" none none)).results = [])) ∧
    ((500 : Nat) = 500 →
      (∃ s, (some "新宿区" : Option String) = some s ∧ s ≠ "" ∧
        (env3.geocode s).status_code ≠ 200) ∨
      (∃ loc, resolve_location env3.geocode (some "新宿区") = .ok loc ∧
        (env3.nearby (nearby_params loc "カフェ" none none)).status_code ≠ 200) ∨
      (∃ place msg, search_nearby_places env3 "カフェ" (some "新宿区") none none none =
          .ok place ∧
        env3.completion (build_messages place) = .error msg)) :=
  c3_chat_error_classification env3 "カフェ" (some "新宿区") none none none
    ⟨500, "Google Maps APIから座標を取得できませんでした。ステータスコード: 500"⟩ (by rfl)

/-- C3 counterexample: the geocoding service answers 201 — a 2xx status
with a usable result and a healthy nearby service — yet the `/chat`
pipeline fails with a 500, because the code tests `status_code != 200`
rather than non-2xx; the failure fits none of the claimed failure classes. -/
theorem c3_status_201_counterexample :
    chat env201 "カフェ" (some "新宿区") none none none =
      .error ⟨500, "Google Maps APIから座標を取得できませんでした。ステータスコード: 201"⟩ ∧
    200 ≤ (env201.geocode "新宿区").status_code ∧
    (env201.geocode "新宿区").status_code < 300 ∧
    (env201.geocode "新宿区").results ≠ [] ∧
    (env201.nearby (nearby_params "35.0,139.0" "カフェ" none none)).status_code = 200 :=
  ⟨rfl, by decide, by decide, by decide, rfl⟩

/-- C10: on the HTML `/results` endpoint, a supplied non-blank
`price_level` string that is not an integer literal, or — once the
price_level conversion has succeeded, since the code converts in that
order — a supplied non-blank `rating` string that is not a float literal,
makes `display_results` end in an uncaught `ValueError` (no error template
is rendered for it); whereas every `HTTPException` failure of the pipeline,
whether from the search stage or from narrative generation, is rendered as
an error page carrying its detail. -/
theorem c10_nonnumeric_conversion_uncaught (env : Env) (query location_name : String)
    (open_now : Option String) :
    (∀ (rt : Option String) (s : String), py_strip s ≠ "" → py_int s = none →
      display_results env query location_name open_now (some s) rt =
        .uncaught ("invalid literal for int() with base 10: " ++ s)) ∧
    (∀ (pl : Option String) (plv : Option Int) (s : String),
      convert_price_level pl = .ok plv → py_strip s ≠ "" → py_float s = none →
      display_results env query location_name open_now pl (some s) =
        .uncaught ("could not convert string to float: " ++ s)) ∧
    (∀ (pl rt : Option String) (plv : Option Int) (rtv : Option ℚ) (e : HTTPException),
      convert_price_level pl = .ok plv → convert_rating rt = .ok rtv →
      (search_nearby_places env query (some location_name) (convert_open_now open_now)
          plv rtv).bind (fun place => generate_response env place) = .error e →
      display_results env query location_name open_now pl rt = .error_page e.detail) := by
  refine ⟨?_, ?_, ?_⟩
  · intro rt s h1 h2
    have hs : s ≠ "" := by
      intro h
      subst h
      exact h1 rfl
    have hconv : convert_price_level (some s) =
        .error ("invalid literal for int() with base 10: " ++ s) := by
      rw [convert_price_level]
      rw [if_neg hs, if_neg h1, h2]
    rw [display_results, hconv]
  · intro pl plv s hpl h1 h2
    have hs : s ≠ "" := by
      intro h
      subst h
      exact h1 rfl
    have hconv : convert_rating (some s) =
        .error ("could not convert string to float: " ++ s) := by
      rw [convert_rating]
      rw [if_neg hs, if_neg h1, h2]
    rw [display_results, hpl, hconv]
  · intro pl rt plv rtv e hpl hrt hfail
    have hd : display_results env query location_name open_now pl rt =
        render_search env query location_name (convert_open_now open_now) plv rtv := by
      rw [display_results, hpl, hrt]
    rw [hd, render_search]
    cases hs : search_nearby_places env query (some location_name)
        (convert_open_now open_now) plv rtv with
    | error e' =>
      have he : e' = e := by
        rw [hs] at hfail
        simpa [Except.bind] using hfail
      subst he
      rfl
    | ok p =>
      have hg : generate_response env p = .error e := by
        rw [hs] at hfail
        simpa [Except.bind] using hfail
      simp [Except.bind, Except.map, hg]

/-- Witness for C10: `price_level="abc"` and `rating="4..5"` each escape
the handler, while a failing nearby service and a failing completion call
are each rendered as an error page. -/
theorem c10_nonnumeric_conversion_uncaught_witness :
    display_results env1 "カフェ" "新宿区" none (some "abc") none =
      .uncaught "invalid literal for int() with base 10: abc" ∧
    display_results env1 "カフェ" "新宿区" none (some "3") (some "4..5") =
      .uncaught "could not convert string to float: 4..5" ∧
    display_results { env1 with nearby := fun _ => ⟨500, []⟩ } "カフェ" "新宿区"
        none none none =
      .error_page "Google Maps APIリクエストが失敗しました。ステータスコード: 500" ∧
    display_results { env1 with completion := fun _ => .error "quota" } "カフェ" "新宿区"
        none none none =
      .error_page "OpenAI APIエラーが発生しました: quota" :=
  ⟨(c10_nonnumeric_conversion_uncaught env1 "カフェ" "新宿区" none).1
     none "abc" (by decide) (by rfl),
   (c10_nonnumeric_conversion_uncaught env1 "カフェ" "新宿区" none).2.1
     (some "3") (some 3) "4..5" (by rfl) (by decide) (by rfl),
   (c10_nonnumeric_conversion_uncaught { env1 with nearby := fun _ => ⟨500, []⟩ }
      "カフェ" "新宿区" none).2.2 none none none none
     ⟨500, "Google Maps APIリクエストが失敗しました。ステータスコード: 500"⟩
     (by rfl) (by rfl) (by rfl),
   (c10_nonnumeric_conversion_uncaught { env1 with completion := fun _ => .error "quota" }
      "カフェ" "新宿区" none).2.2 none none none none
     ⟨500, "OpenAI APIエラーが発生しました: quota"⟩ (by rfl) (by rfl) (by rfl)⟩

end LocaFind
